import Mathlib

/-!
Verification of the on-road HUD overlay (`selfdrive/ui/qt/onroad.cc`).
Shallow embedding: floating-point quantities are modelled over `ℚ`, the C
cast `(int)` as truncation toward zero, Qt's `qBound`/`std::clamp` as
`max`/`min`, and the widget's per-tick state updates as pure functions on
explicit state records.  Every definition is transcribed from the source
file; the few constants living outside this slice (unit-conversion factors
from `common/conversions`, the `totalFrames` constant from `onroad.h`) are
modelled from the spec and noted as such.
-/

namespace Onroad

/-- Conversion factor from m/s to km/h.  Modelled from the spec: defined in
`common/conversions.h`, outside this source slice. -/
def MS_TO_KPH : ℚ := 3.6

/-- Conversion factor from m/s to mph.  Modelled from the spec: defined in
`common/conversions.h`, outside this source slice. -/
def MS_TO_MPH : ℚ := 2.23694

/-- Conversion factor from km/h to mph.  Modelled from the spec: defined in
`common/conversions.h`, outside this source slice. -/
def KM_TO_MILE : ℚ := 0.621371

/-- C-style cast of a floating value to `int`: truncation toward zero. -/
def cTrunc (q : ℚ) : ℤ := if 0 ≤ q then ⌊q⌋ else ⌈q⌉

/-- Round to nearest integer, ties to even (C `std::nearbyint` in the
default rounding mode). -/
def roundTiesEven (q : ℚ) : ℤ :=
  let f := ⌊q⌋
  if q - f < 1/2 then f
  else if 1/2 < q - f then f + 1
  else if f % 2 = 0 then f else f + 1

/-- The `SET_SPEED_NA` sentinel from `AnnotatedCameraWidget::updateState`. -/
def SET_SPEED_NA : ℚ := 255

/-- Result of the speed-related portion of `AnnotatedCameraWidget::updateState`. -/
structure SpeedReadout where
  setSpeed : ℚ
  is_cruise_set : Bool
  speed : ℚ
deriving Repr, DecidableEq

/-- Speed-related portion of `AnnotatedCameraWidget::updateState`
(onroad.cc lines 527-549): set speed (with the `SET_SPEED_NA` fallback when
`controlsState` is not alive), the `is_cruise_set` flag, and the displayed
speed with its unit conversion. -/
def updateSpeeds (cs_alive is_metric v_ego_cluster_seen : Bool)
    (vCruise vCruiseCluster vEgo vEgoCluster : ℚ) : SpeedReadout :=
  let v_cruise : ℚ := if vCruiseCluster = 0 then vCruise else vCruiseCluster
  let setSpeed0 : ℚ := if cs_alive then v_cruise else SET_SPEED_NA
  let ics : Bool := decide (0 < setSpeed0) && decide (cTrunc setSpeed0 ≠ 255)
  let setSpeed1 : ℚ := if ics && !is_metric then setSpeed0 * KM_TO_MILE else setSpeed0
  let seen : Bool := v_ego_cluster_seen || decide (vEgoCluster ≠ 0)
  let v_ego : ℚ := if seen then vEgoCluster else vEgo
  let speed0 : ℚ := if cs_alive then max 0 v_ego else 0
  ⟨setSpeed1, ics, speed0 * (if is_metric then MS_TO_KPH else MS_TO_MPH)⟩

/-- The set-speed readout string from `AnnotatedCameraWidget::drawHud`
(onroad.cc line 658): `none` stands for the dash "–". -/
def setSpeedReadout (r : SpeedReadout) (vtscOffset : ℚ) : Option ℤ :=
  if r.is_cruise_set then some (roundTiesEven (r.setSpeed - max (vtscOffset - 1) 0)) else none

/-- Speed-limit sign styles from the `cereal::NavInstruction` schema. -/
inductive SpeedLimitSign
  | noSign
  | mutcd
  | vienna
deriving DecidableEq, Repr

/-- `has_us_speed_limit` from `AnnotatedCameraWidget::updateState`
(onroad.cc line 557): a float `slcSpeedLimit` is truthy iff nonzero. -/
def has_us_speed_limit (nav_alive : Bool) (sign : SpeedLimitSign) (slcSpeedLimit : ℚ) : Bool :=
  (nav_alive && decide (sign = SpeedLimitSign.mutcd)) || decide (slcSpeedLimit ≠ 0)

/-- `has_eu_speed_limit` from `AnnotatedCameraWidget::updateState`
(onroad.cc line 558). -/
def has_eu_speed_limit (nav_alive : Bool) (sign : SpeedLimitSign) : Bool :=
  nav_alive && decide (sign = SpeedLimitSign.vienna)

/-- Sign renderings in `AnnotatedCameraWidget::drawHud` (onroad.cc lines
720-759): the MUTCD block runs when `has_us_speed_limit` holds and the
Vienna block when `has_eu_speed_limit` holds, independently. -/
inductive SignStyle
  | usSign
  | euSign
deriving DecidableEq, Repr

/-- Signs painted by one `drawHud` call, in paint order. -/
def drawnSigns (us eu : Bool) : List SignStyle :=
  (if us then [SignStyle.usSign] else []) ++ (if eu then [SignStyle.euSign] else [])

/-- `PersonalityButton::handleClick` (onroad.cc lines 1492-1498):
`mapping[] = {2, 0, 1}` indexed by the current profile. -/
def personalityMapping : List ℕ := [2, 0, 1]

/-- Profile after one click of the personality button. -/
def handleClick (p : ℕ) : ℕ := personalityMapping.getD p 0

/-- Qt's `qBound(lo, v, hi) = qMax(lo, qMin(hi, v))`. -/
def qBound (lo v hi : ℚ) : ℚ := max lo (min hi v)

/-- Opacity computation of `AnnotatedCameraWidget::drawStatusBar`
(onroad.cc lines 1588-1598): returns
(statusTextOpacity, roadNameOpacity) for a given `displayStatusText` state
and elapsed time; `textDuration = 5000`, `fadeDuration = 1500`. -/
def statusBarOpacities (displayStatusText : Bool) (elapsed : ℚ) : ℚ × ℚ :=
  if displayStatusText then
    let sto := qBound 0 (1 - (elapsed - 5000) / 1500) 1
    (sto, 1 - sto)
  else
    let rno := qBound 0 (elapsed / 1500) 1
    (1 - rno, rno)

/-- Claim C4: for every telemetry snapshot in which the `controlsState`
feed is not alive, `updateState` substitutes defaults rather than
signaling failure: the set speed becomes the N/A sentinel 255 (so
`is_cruise_set` is false and the set-speed readout renders as a dash) and
the displayed speed becomes 0. -/
theorem C4_stale_controls_defaults (is_metric v_seen : Bool) (vC vCC vE vEC vtsc : ℚ) :
    (updateSpeeds false is_metric v_seen vC vCC vE vEC).setSpeed = 255 ∧
    (updateSpeeds false is_metric v_seen vC vCC vE vEC).is_cruise_set = false ∧
    (updateSpeeds false is_metric v_seen vC vCC vE vEC).speed = 0 ∧
    setSpeedReadout (updateSpeeds false is_metric v_seen vC vCC vE vEC) vtsc = none := by
  have hics : (decide ((0:ℚ) < 255) && decide (cTrunc 255 ≠ 255)) = false := by
    simp [cTrunc]
  refine ⟨?_, ?_, ?_, ?_⟩ <;>
    simp [updateSpeeds, setSpeedReadout, SET_SPEED_NA, cTrunc]

/-- Claim C2 counterexample: with a live `navInstruction` showing a Vienna
sign and a nonzero SLC speed limit, both sign flags are set after
`updateState`, and `drawHud` paints both sign styles in the same frame. -/
theorem C2_counterexample :
    has_us_speed_limit true SpeedLimitSign.vienna 50 = true ∧
    has_eu_speed_limit true SpeedLimitSign.vienna = true ∧
    drawnSigns (has_us_speed_limit true SpeedLimitSign.vienna 50)
      (has_eu_speed_limit true SpeedLimitSign.vienna) = [SignStyle.usSign, SignStyle.euSign] := by
  decide

/-- Claim C2 (amended): when the SLC speed limit is unset (zero), at most
one of `has_us_speed_limit` and `has_eu_speed_limit` is true, so `drawHud`
paints at most one sign style in a frame. -/
theorem C2_sign_mutual_exclusion (nav_alive : Bool) (sign : SpeedLimitSign) (slc : ℚ)
    (h : slc = 0) :
    ¬(has_us_speed_limit nav_alive sign slc = true ∧
      has_eu_speed_limit nav_alive sign = true) ∧
    (drawnSigns (has_us_speed_limit nav_alive sign slc)
      (has_eu_speed_limit nav_alive sign)).length ≤ 1 := by
  subst h
  cases nav_alive <;> cases sign <;>
    simp [has_us_speed_limit, has_eu_speed_limit, drawnSigns]

/-- Witness for C2: concrete instantiation with a MUTCD nav sign and no
SLC limit. -/
theorem C2_sign_mutual_exclusion_witness :
    ¬(has_us_speed_limit true SpeedLimitSign.mutcd 0 = true ∧
      has_eu_speed_limit true SpeedLimitSign.mutcd = true) ∧
    (drawnSigns (has_us_speed_limit true SpeedLimitSign.mutcd 0)
      (has_eu_speed_limit true SpeedLimitSign.mutcd)).length ≤ 1 :=
  C2_sign_mutual_exclusion true SpeedLimitSign.mutcd 0 rfl

/-- Claim C9: `PersonalityButton::handleClick` applies the fixed mapping
0 → 2, 1 → 0, 2 → 1; the profile stays in {0, 1, 2} and three consecutive
clicks restore the original profile (a cyclic permutation of order 3). -/
theorem C9_personality_cycle (p : ℕ) (h : p < 3) :
    handleClick p < 3 ∧
    handleClick (handleClick (handleClick p)) = p ∧
    (p = 0 → handleClick p = 2) ∧
    (p = 1 → handleClick p = 0) ∧
    (p = 2 → handleClick p = 1) := by
  interval_cases p <;> decide

/-- Witness for C9 at profile 1. -/
theorem C9_personality_cycle_witness :
    (1 : ℕ) < 3 ∧
    (handleClick 1 < 3 ∧
     handleClick (handleClick (handleClick 1)) = 1 ∧
     ((1:ℕ) = 0 → handleClick 1 = 2) ∧
     ((1:ℕ) = 1 → handleClick 1 = 0) ∧
     ((1:ℕ) = 2 → handleClick 1 = 1)) :=
  ⟨by decide, C9_personality_cycle 1 (by decide)⟩

/-- Claim C10: in `drawStatusBar`, the status-text opacity and the
road-name opacity each lie in [0, 1] and sum to exactly 1, for every
elapsed time and in both display states. -/
theorem C10_crossfade_complementary (d : Bool) (e : ℚ) :
    0 ≤ (statusBarOpacities d e).1 ∧ (statusBarOpacities d e).1 ≤ 1 ∧
    0 ≤ (statusBarOpacities d e).2 ∧ (statusBarOpacities d e).2 ≤ 1 ∧
    (statusBarOpacities d e).1 + (statusBarOpacities d e).2 = 1 := by
  have hmem : ∀ x : ℚ, 0 ≤ qBound 0 x 1 ∧ qBound 0 x 1 ≤ 1 := by
    intro x
    constructor
    · exact le_max_left 0 _
    · exact max_le (by norm_num) (min_le_left 1 x)
  cases d with
  | false =>
    obtain ⟨h1, h2⟩ := hmem (e / 1500)
    have hdef : statusBarOpacities false e =
        (1 - qBound 0 (e / 1500) 1, qBound 0 (e / 1500) 1) := rfl
    simp only [hdef]
    exact ⟨by linarith, by linarith, h1, h2, by ring⟩
  | true =>
    obtain ⟨h1, h2⟩ := hmem (1 - (e - 5000) / 1500)
    have hdef : statusBarOpacities true e =
        (qBound 0 (1 - (e - 5000) / 1500) 1, 1 - qBound 0 (1 - (e - 5000) / 1500) 1) := rfl
    simp only [hdef]
    exact ⟨h1, h2, by linarith, by linarith, by ring⟩

/-- Gradient choices for the path edges in
`AnnotatedCameraWidget::drawLaneLines` (onroad.cc lines 917-945). -/
inductive PathEdgeMode
  | alwaysOnLateralGradient
  | conditionalOverrideGradient
  | experimentalGradient
  | navigationGradient
  | customThemeGradient
  | defaultGradient
deriving DecidableEq, Repr

/-- The if-else chain choosing the path-edge gradient stops in
`AnnotatedCameraWidget::drawLaneLines` (onroad.cc lines 919-945). -/
def pathEdgeMode (alwaysOnLateral : Bool) (conditionalStatus : ℤ)
    (experimentalMode navigateOnOpenpilot : Bool) (customColors : ℤ) : PathEdgeMode :=
  if alwaysOnLateral then PathEdgeMode.alwaysOnLateralGradient
  else if conditionalStatus = 1 then PathEdgeMode.conditionalOverrideGradient
  else if experimentalMode then PathEdgeMode.experimentalGradient
  else if navigateOnOpenpilot then PathEdgeMode.navigationGradient
  else if customColors ≠ 0 then PathEdgeMode.customThemeGradient
  else PathEdgeMode.defaultGradient

/-- Claim C3 counterexample: with the custom-theme toggle nonzero
(`customColors = 1`) and experimental mode on, `drawLaneLines` picks the
experimental gradient, not the custom-theme gradient — so the custom theme
is not the highest-priority mode as the claim states. -/
theorem C3_counterexample :
    pathEdgeMode false 0 true false 1 = PathEdgeMode.experimentalGradient ∧
    pathEdgeMode false 0 true false 1 ≠ PathEdgeMode.customThemeGradient := by
  constructor <;> decide

/-- Claim C3 (amended): the gradient stops are chosen by the mutually
exclusive priority chain always-on-lateral > conditional override
(`conditionalStatus == 1`) > experimental > navigation > custom theme >
default; each mode's gradient is used exactly when its flag is set and no
higher-priority flag is. -/
theorem C3_gradient_priority_chain (a : Bool) (c : ℤ) (e n : Bool) (cc : ℤ) :
    (pathEdgeMode a c e n cc = PathEdgeMode.alwaysOnLateralGradient ↔ a = true) ∧
    (pathEdgeMode a c e n cc = PathEdgeMode.conditionalOverrideGradient ↔
      a = false ∧ c = 1) ∧
    (pathEdgeMode a c e n cc = PathEdgeMode.experimentalGradient ↔
      a = false ∧ c ≠ 1 ∧ e = true) ∧
    (pathEdgeMode a c e n cc = PathEdgeMode.navigationGradient ↔
      a = false ∧ c ≠ 1 ∧ e = false ∧ n = true) ∧
    (pathEdgeMode a c e n cc = PathEdgeMode.customThemeGradient ↔
      a = false ∧ c ≠ 1 ∧ e = false ∧ n = false ∧ cc ≠ 0) ∧
    (pathEdgeMode a c e n cc = PathEdgeMode.defaultGradient ↔
      a = false ∧ c ≠ 1 ∧ e = false ∧ n = false ∧ cc = 0) := by
  by_cases hc : c = 1 <;> by_cases hcc : cc = 0 <;>
    cases a <;> cases e <;> cases n <;>
    simp [pathEdgeMode, hc, hcc]

/-- Distance buffer of `AnnotatedCameraWidget::drawLead`
(onroad.cc line 1071): 100 with a custom theme active, else 40. -/
def leadBuff (customColors : ℤ) : ℚ := if customColors ≠ 0 then 100 else 40

/-- Relative-speed buffer of `AnnotatedCameraWidget::drawLead`
(onroad.cc line 1070): 25 with a custom theme active, else 10. -/
def speedBuff (customColors : ℤ) : ℚ := if customColors ≠ 0 then 25 else 10

/-- Uncapped chevron fill opacity inside the distance buffer
(onroad.cc lines 1077-1079): linear distance ramp, plus an extra term when
the lead is closing (`v_rel < 0`). -/
def fillAlphaRaw (customColors : ℤ) (d_rel v_rel : ℚ) : ℚ :=
  if v_rel < 0 then
    255 * (1 - d_rel / leadBuff customColors) + 255 * (-(v_rel / speedBuff customColors))
  else 255 * (1 - d_rel / leadBuff customColors)

/-- Chevron fill opacity of `AnnotatedCameraWidget::drawLead`
(onroad.cc lines 1075-1082): the ramp is capped at 255 and truncated to an
int; zero outside the distance buffer. -/
def fillAlpha (customColors : ℤ) (d_rel v_rel : ℚ) : ℚ :=
  if d_rel < leadBuff customColors then
    ((cTrunc (min (fillAlphaRaw customColors d_rel v_rel) 255) : ℤ) : ℚ)
  else 0

/-- Chevron size of `AnnotatedCameraWidget::drawLead` (onroad.cc line
1084): `std::clamp((25 * 30) / (d_rel / 3 + 30), 15, 30) * 2.35`. -/
def chevronSize (d_rel : ℚ) : ℚ := min (max ((25 * 30) / (d_rel / 3 + 30)) 15) 30 * 2.35

theorem leadBuff_pos (cc : ℤ) : 0 < leadBuff cc := by
  unfold leadBuff; split <;> norm_num

theorem speedBuff_pos (cc : ℤ) : 0 < speedBuff cc := by
  unfold speedBuff; split <;> norm_num

theorem cTrunc_eq_floor {q : ℚ} (h : 0 ≤ q) : cTrunc q = ⌊q⌋ := if_pos h

theorem fillAlphaRaw_pos (cc : ℤ) {d : ℚ} (v : ℚ) (hd : d < leadBuff cc) :
    0 < fillAlphaRaw cc d v := by
  have hL := leadBuff_pos cc
  have ha0 : (0:ℚ) < 255 * (1 - d / leadBuff cc) := by
    have : d / leadBuff cc < 1 := (div_lt_one hL).mpr hd
    nlinarith
  unfold fillAlphaRaw
  split
  · next hv =>
    have hvp : 0 < -(v / speedBuff cc) := by
      have : v / speedBuff cc < 0 := div_neg_of_neg_of_pos hv (speedBuff_pos cc)
      linarith
    nlinarith
  · exact ha0

theorem fillAlphaRaw_antitone (cc : ℤ) (v : ℚ) {d1 d2 : ℚ} (h : d1 ≤ d2) :
    fillAlphaRaw cc d2 v ≤ fillAlphaRaw cc d1 v := by
  have hL := leadBuff_pos cc
  have hdiv : d1 / leadBuff cc ≤ d2 / leadBuff cc := (div_le_div_iff_of_pos_right hL).mpr h
  have hbase : 255 * (1 - d2 / leadBuff cc) ≤ 255 * (1 - d1 / leadBuff cc) := by nlinarith
  unfold fillAlphaRaw
  split <;> linarith

theorem fillAlpha_nonneg (cc : ℤ) (d v : ℚ) : 0 ≤ fillAlpha cc d v := by
  unfold fillAlpha
  split
  · next hd =>
    have hmin : (0:ℚ) ≤ min (fillAlphaRaw cc d v) 255 :=
      le_min (le_of_lt (fillAlphaRaw_pos cc v hd)) (by norm_num)
    have : (0:ℤ) ≤ cTrunc (min (fillAlphaRaw cc d v) 255) := by
      rw [cTrunc_eq_floor hmin]
      exact Int.floor_nonneg.mpr hmin
    exact_mod_cast this
  · exact le_refl 0

theorem fillAlpha_le_255 (cc : ℤ) (d v : ℚ) : fillAlpha cc d v ≤ 255 := by
  unfold fillAlpha
  split
  · next hd =>
    have hmin : (0:ℚ) ≤ min (fillAlphaRaw cc d v) 255 :=
      le_min (le_of_lt (fillAlphaRaw_pos cc v hd)) (by norm_num)
    rw [cTrunc_eq_floor hmin]
    have h1 : ((⌊min (fillAlphaRaw cc d v) 255⌋ : ℤ) : ℚ) ≤ min (fillAlphaRaw cc d v) 255 :=
      Int.floor_le _
    have h2 : min (fillAlphaRaw cc d v) 255 ≤ (255:ℚ) := min_le_right _ _
    linarith
  · norm_num

theorem fillAlpha_antitone (cc : ℤ) (v : ℚ) {d1 d2 : ℚ} (h : d1 ≤ d2) :
    fillAlpha cc d2 v ≤ fillAlpha cc d1 v := by
  by_cases h2 : d2 < leadBuff cc
  · have h1 : d1 < leadBuff cc := lt_of_le_of_lt h h2
    have hmin : min (fillAlphaRaw cc d2 v) 255 ≤ min (fillAlphaRaw cc d1 v) 255 :=
      min_le_min (fillAlphaRaw_antitone cc v h) le_rfl
    have hmin2nn : (0:ℚ) ≤ min (fillAlphaRaw cc d2 v) 255 :=
      le_min (le_of_lt (fillAlphaRaw_pos cc v h2)) (by norm_num)
    have hmin1nn : (0:ℚ) ≤ min (fillAlphaRaw cc d1 v) 255 := le_trans hmin2nn hmin
    unfold fillAlpha
    rw [if_pos h2, if_pos h1, cTrunc_eq_floor hmin2nn, cTrunc_eq_floor hmin1nn]
    exact_mod_cast Int.floor_le_floor hmin
  · unfold fillAlpha
    rw [if_neg h2]
    exact fillAlpha_nonneg cc d1 v

theorem chevronSize_bounds (d : ℚ) :
    15 * 2.35 ≤ chevronSize d ∧ chevronSize d ≤ 30 * 2.35 := by
  unfold chevronSize
  constructor
  · have h15 : (15:ℚ) ≤ min (max ((25 * 30) / (d / 3 + 30)) 15) 30 :=
      le_min (le_max_right _ _) (by norm_num)
    nlinarith
  · have h30 : min (max ((25 * 30) / (d / 3 + 30)) 15) 30 ≤ (30:ℚ) := min_le_right _ _
    nlinarith

theorem chevronSize_antitone {d1 d2 : ℚ} (h0 : 0 ≤ d1) (h : d1 ≤ d2) :
    chevronSize d2 ≤ chevronSize d1 := by
  unfold chevronSize
  have hden1 : (0:ℚ) < d1 / 3 + 30 := by linarith
  have hden : d1 / 3 + 30 ≤ d2 / 3 + 30 := by linarith
  have hq : (25 * 30) / (d2 / 3 + 30) ≤ (25 * 30) / (d1 / 3 + 30) := by
    apply div_le_div_of_nonneg_left (by norm_num) hden1 hden
  have hclamp : min (max ((25 * 30) / (d2 / 3 + 30)) 15) 30 ≤
      min (max ((25 * 30) / (d1 / 3 + 30)) 15) 30 :=
    min_le_min (max_le_max hq le_rfl) le_rfl
  nlinarith

/-- Claim C5: in `drawLead`, for every relative distance `d_rel ≥ 0` and
relative velocity: the chevron fill opacity lies in [0, 255], is
non-increasing as `d_rel` grows, and is zero once `d_rel` reaches the
distance buffer; the chevron size is clamped to [15·2.35, 30·2.35] and is
non-increasing in `d_rel`. -/
theorem C5_chevron_monotone (cc : ℤ) (v d1 d2 : ℚ) (h0 : 0 ≤ d1) (h12 : d1 ≤ d2) :
    0 ≤ fillAlpha cc d1 v ∧ fillAlpha cc d1 v ≤ 255 ∧
    fillAlpha cc d2 v ≤ fillAlpha cc d1 v ∧
    (leadBuff cc ≤ d2 → fillAlpha cc d2 v = 0) ∧
    15 * 2.35 ≤ chevronSize d1 ∧ chevronSize d1 ≤ 30 * 2.35 ∧
    chevronSize d2 ≤ chevronSize d1 :=
  ⟨fillAlpha_nonneg cc d1 v, fillAlpha_le_255 cc d1 v, fillAlpha_antitone cc v h12,
   fun hb => by unfold fillAlpha; rw [if_neg (not_lt.mpr hb)],
   (chevronSize_bounds d1).1, (chevronSize_bounds d1).2, chevronSize_antitone h0 h12⟩

/-- Witness for C5 at a custom-theme-off snapshot with a closing lead,
distances 10 and 50. -/
theorem C5_chevron_monotone_witness :
    (0:ℚ) ≤ 10 ∧ (10:ℚ) ≤ 50 ∧
    (0 ≤ fillAlpha 0 10 (-1) ∧ fillAlpha 0 10 (-1) ≤ 255 ∧
     fillAlpha 0 50 (-1) ≤ fillAlpha 0 10 (-1) ∧
     (leadBuff 0 ≤ 50 → fillAlpha 0 50 (-1) = 0) ∧
     15 * 2.35 ≤ chevronSize 10 ∧ chevronSize 10 ≤ 30 * 2.35 ∧
     chevronSize 50 ≤ chevronSize 10) :=
  ⟨by norm_num, by norm_num, C5_chevron_monotone 0 (-1) 10 50 (by norm_num) (by norm_num)⟩

/-- Integer screen point (a `QPoint`). -/
structure Pt where
  x : ℤ
  y : ℤ
deriving DecidableEq, Repr

/-- Qt's `QRect(rx, ry, rw, rh).contains(p)`: the right/bottom edges are
`rx + rw - 1` and `ry + rh - 1`, inclusive. -/
def rectContains (rx ry rw rh : ℤ) (p : Pt) : Bool :=
  decide (rx ≤ p.x) && decide (p.x ≤ rx + rw - 1) &&
  decide (ry ≤ p.y) && decide (p.y ≤ ry + rh - 1)

/-- Hit test against the cruise-increment rectangle `QRect(7, 25, 225, 225)`
(onroad.cc line 158). -/
def isMaxSpeedClicked (p : Pt) : Bool := rectContains 7 25 225 225 p

/-- Hit test against the hide-speed rectangle
`QRect(center.x - 175, 50, 350, 350)` (onroad.cc line 162). -/
def isSpeedClicked (centerX : ℤ) (p : Pt) : Bool :=
  rectContains (centerX - 175) 50 350 350 p

/-- Hit test against the speed-limit-offset rectangle
`QRect(7, 250, 225, 225)` (onroad.cc line 166). -/
def isSpeedLimitClicked (p : Pt) : Bool := rectContains 7 250 225 225 p

/-- Outcomes of `OnroadWindow::mousePressEvent` (onroad.cc lines 149-217):
one of the three widget toggles, the experimental-mode double-click
handling, or propagation to the parent window. -/
inductive MouseOutcome
  | reverseCruiseToggle
  | hideSpeedToggle
  | slcOffsetToggle
  | experimentalHandled
  | propagateToParent
deriving DecidableEq, Repr

/-- Dispatch of `OnroadWindow::mousePressEvent` (onroad.cc lines 149-217). -/
def mousePressOutcome (centerX : ℤ) (experimentalModeViaWheel posNeTimeout : Bool)
    (p : Pt) : MouseOutcome :=
  if isMaxSpeedClicked p then MouseOutcome.reverseCruiseToggle
  else if isSpeedClicked centerX p then MouseOutcome.hideSpeedToggle
  else if isSpeedLimitClicked p then MouseOutcome.slcOffsetToggle
  else if experimentalModeViaWheel && posNeTimeout then MouseOutcome.experimentalHandled
  else MouseOutcome.propagateToParent

/-- Claim C7: for every click point inside one or more of the three fixed
rectangles, exactly one toggle action runs — the one of the earliest
matching rectangle in the order cruise-increment, hide-speed,
speed-limit-offset — and the event is not propagated to the parent. -/
theorem C7_first_match_wins (cx : ℤ) (emw pnt : Bool) (p : Pt)
    (h : isMaxSpeedClicked p = true ∨ isSpeedClicked cx p = true ∨
      isSpeedLimitClicked p = true) :
    mousePressOutcome cx emw pnt p ≠ MouseOutcome.propagateToParent ∧
    mousePressOutcome cx emw pnt p ≠ MouseOutcome.experimentalHandled ∧
    (mousePressOutcome cx emw pnt p = MouseOutcome.reverseCruiseToggle ↔
      isMaxSpeedClicked p = true) ∧
    (mousePressOutcome cx emw pnt p = MouseOutcome.hideSpeedToggle ↔
      isMaxSpeedClicked p = false ∧ isSpeedClicked cx p = true) ∧
    (mousePressOutcome cx emw pnt p = MouseOutcome.slcOffsetToggle ↔
      isMaxSpeedClicked p = false ∧ isSpeedClicked cx p = false ∧
      isSpeedLimitClicked p = true) := by
  cases hm : isMaxSpeedClicked p <;> cases hs : isSpeedClicked cx p <;>
    cases hl : isSpeedLimitClicked p <;>
    simp_all [mousePressOutcome]

/-- Witness for C7: a click at (100, 100) inside the cruise-increment
rectangle, widget center at x = 1000. -/
theorem C7_first_match_wins_witness :
    (isMaxSpeedClicked ⟨100, 100⟩ = true ∨ isSpeedClicked 1000 ⟨100, 100⟩ = true ∨
      isSpeedLimitClicked ⟨100, 100⟩ = true) ∧
    (mousePressOutcome 1000 true true ⟨100, 100⟩ ≠ MouseOutcome.propagateToParent ∧
     mousePressOutcome 1000 true true ⟨100, 100⟩ ≠ MouseOutcome.experimentalHandled ∧
     (mousePressOutcome 1000 true true ⟨100, 100⟩ = MouseOutcome.reverseCruiseToggle ↔
       isMaxSpeedClicked ⟨100, 100⟩ = true) ∧
     (mousePressOutcome 1000 true true ⟨100, 100⟩ = MouseOutcome.hideSpeedToggle ↔
       isMaxSpeedClicked ⟨100, 100⟩ = false ∧ isSpeedClicked 1000 ⟨100, 100⟩ = true) ∧
     (mousePressOutcome 1000 true true ⟨100, 100⟩ = MouseOutcome.slcOffsetToggle ↔
       isMaxSpeedClicked ⟨100, 100⟩ = false ∧ isSpeedClicked 1000 ⟨100, 100⟩ = false ∧
       isSpeedLimitClicked ⟨100, 100⟩ = true)) :=
  ⟨Or.inl (by decide), C7_first_match_wins 1000 true true ⟨100, 100⟩ (Or.inl (by decide))⟩

/-- One tick of the turn-signal animation timer
(onroad.cc line 521): `animationFrameIndex = (animationFrameIndex + 1) % totalFrames`.
The `totalFrames` constant itself is declared in `onroad.h`, outside this
slice, so it is kept as a parameter. -/
def advanceFrame (totalFrames i : ℕ) : ℕ := (i + 1) % totalFrames

theorem advanceFrame_iterate (t : ℕ) (k i : ℕ) (hi : i < t) :
    (advanceFrame t)^[k] i = (i + k) % t := by
  induction k with
  | zero => simp [Nat.mod_eq_of_lt hi]
  | succ k ih =>
    have hstep : i + (k + 1) = (i + k) + 1 := by omega
    rw [Function.iterate_succ_apply', ih, hstep]
    unfold advanceFrame
    exact Nat.mod_add_mod (i + k) t 1

/-- Claim C8: each timer tick maps the animation frame index `i` to
`(i + 1) % totalFrames`, the index always stays in `[0, totalFrames)`,
and `totalFrames` consecutive ticks return to the starting index, so the
animation cycles through the pre-rendered image set. -/
theorem C8_signal_frame_cycle (t i : ℕ) (ht : 0 < t) (hi : i < t) :
    advanceFrame t i = (i + 1) % t ∧
    advanceFrame t i < t ∧
    (advanceFrame t)^[t] i = i := by
  refine ⟨rfl, Nat.mod_lt _ ht, ?_⟩
  rw [advanceFrame_iterate t t i hi, Nat.add_mod_right, Nat.mod_eq_of_lt hi]

/-- Witness for C8 at `totalFrames = 8`, index 3. -/
theorem C8_signal_frame_cycle_witness :
    0 < 8 ∧ 3 < 8 ∧
    (advanceFrame 8 3 = (3 + 1) % 8 ∧ advanceFrame 8 3 < 8 ∧
     (advanceFrame 8)^[8] 3 = 3) :=
  ⟨by decide, by decide, C8_signal_frame_cycle 8 3 (by decide) (by decide)⟩

/-- Vision stream types relevant to `paintGL`'s stream selection. -/
inductive StreamType
  | road
  | wideRoad
  | driver
deriving DecidableEq, Repr

/-- Read-only SubMaster fields consulted by `AnnotatedCameraWidget::paintGL`
(onroad.cc lines 1150-1250). -/
structure Sm where
  vEgo : ℚ
  experimentalMode : Bool
  hasWideCam : Bool
  availableStreamsCount : ℕ
  worldObjectsVisible : Bool
  rcvFrameModel : ℕ
  rcvFrameRadar : ℕ
  rcvFrameDriverState : ℕ
deriving Repr

/-- UIScene fields read or written by `paintGL`.  `geometry` stands for the
model/lead/driver-monitoring overlay data that the external helpers
`update_model`, `update_leads` and `update_dmonitoring` (defined in ui.cc,
outside this slice) rewrite in place; those helpers are passed in as
abstract functions on it. -/
structure Scene (G : Type) where
  wide_cam : Bool
  geometry : G
  show_driver_camera : Bool
  wide_camera_disabled : Bool
  calibration_valid : Bool
  calibration_wide_valid : Bool
  longitudinal_control : Bool
  started_frame : ℕ
deriving Repr

/-- State touched by one `paintGL` call: the scene, the shared-memory
parameter store (`/dev/shm/params`, holding the `WideCamera` key written at
onroad.cc line 1187), and widget-local members. -/
structure PaintGLState (G : Type) where
  scene : Scene G
  memStore : String → Bool
  framesEmpty : Bool
  skipFrameCount : ℕ
  wideCamRequested : Bool
  hideBottomIcons : Bool
  muteDM : Bool

/-- The `wide_cam_requested` update of `paintGL` (onroad.cc lines
1174-1186). -/
def wideCamRequestedNext {G : Type} (sm : Sm) (st : PaintGLState G) : Bool :=
  if sm.hasWideCam ∧ ¬st.scene.wide_camera_disabled then
    (if sm.vEgo < 10 ∨ sm.availableStreamsCount = 1 then true
     else if 15 < sm.vEgo then false
     else st.wideCamRequested) && sm.experimentalMode && st.scene.calibration_wide_valid
  else st.wideCamRequested

/-- The stream selection of `paintGL` (onroad.cc line 1188). -/
def selectedStream (show_driver_camera wcr : Bool) : StreamType :=
  if show_driver_camera then StreamType.driver
  else if wcr then StreamType.wideRoad
  else StreamType.road

/-- The `s->scene.wide_cam` assignment of `paintGL` (onroad.cc line 1190). -/
def sceneAfterWideCam {G : Type} (wcr : Bool) (sc : Scene G) : Scene G :=
  { sc with wide_cam := decide (selectedStream sc.show_driver_camera wcr = StreamType.wideRoad) }

/-- The `update_model`/`update_leads` step of `paintGL` (onroad.cc lines
1205-1212): runs only when the driver camera is off, world objects are
visible, and a model frame arrived after the route started. -/
def sceneAfterModel {G : Type} (sm : Sm) (um ul : G → G) (sc : Scene G) : Scene G :=
  if ¬sc.show_driver_camera ∧ sm.worldObjectsVisible ∧
      sc.started_frame < sm.rcvFrameModel then
    { sc with geometry :=
        if sc.started_frame < sm.rcvFrameRadar then ul (um sc.geometry) else um sc.geometry }
  else sc

/-- The `update_dmonitoring` step of `paintGL` (onroad.cc lines 1229-1232). -/
def sceneAfterDM {G : Type} (sm : Sm) (udm : G → G) (hideBottomIcons muteDM : Bool)
    (sc : Scene G) : Scene G :=
  if ¬sc.show_driver_camera ∧ ¬hideBottomIcons ∧
      sc.started_frame < sm.rcvFrameDriverState ∧ ¬muteDM then
    { sc with geometry := udm sc.geometry }
  else sc

/-- One call of `AnnotatedCameraWidget::paintGL` (onroad.cc lines
1150-1250).  `um`, `ul`, `udm` model the external `update_model`,
`update_leads`, `update_dmonitoring` helpers (modelled from the spec: they
live in ui.cc, outside this slice, and rewrite the scene's overlay
geometry).  `startDrawT` and `curDrawT` are the two wall-clock samples;
the returned list holds the payloads of the `uiDebug` messages published
by this call. -/
def paintGL {G : Type} (sm : Sm) (um ul udm : G → G) (startDrawT curDrawT : ℚ)
    (st : PaintGLState G) : PaintGLState G × List ℚ :=
  if st.framesEmpty ∧ 0 < st.skipFrameCount then
    ({ st with skipFrameCount := st.skipFrameCount - 1 }, [])
  else
    let wcr : Bool := wideCamRequestedNext sm st
    { st with
      scene := sceneAfterDM sm udm st.hideBottomIcons st.muteDM
        (sceneAfterModel sm um ul (sceneAfterWideCam wcr st.scene)),
      memStore := fun k => if k = "WideCamera" then wcr else st.memStore k,
      skipFrameCount := if st.framesEmpty then st.skipFrameCount else 5,
      wideCamRequested := wcr }
    |> fun st1 => (st1, [curDrawT - startDrawT])

theorem sceneAfterModel_preserves {G : Type} (sm : Sm) (um ul : G → G) (sc : Scene G) :
    (sceneAfterModel sm um ul sc).wide_cam = sc.wide_cam ∧
    (sceneAfterModel sm um ul sc).show_driver_camera = sc.show_driver_camera ∧
    (sceneAfterModel sm um ul sc).wide_camera_disabled = sc.wide_camera_disabled ∧
    (sceneAfterModel sm um ul sc).calibration_valid = sc.calibration_valid ∧
    (sceneAfterModel sm um ul sc).calibration_wide_valid = sc.calibration_wide_valid ∧
    (sceneAfterModel sm um ul sc).longitudinal_control = sc.longitudinal_control ∧
    (sceneAfterModel sm um ul sc).started_frame = sc.started_frame := by
  unfold sceneAfterModel
  split <;> exact ⟨rfl, rfl, rfl, rfl, rfl, rfl, rfl⟩

theorem sceneAfterDM_preserves {G : Type} (sm : Sm) (udm : G → G)
    (hideBottomIcons muteDM : Bool) (sc : Scene G) :
    (sceneAfterDM sm udm hideBottomIcons muteDM sc).wide_cam = sc.wide_cam ∧
    (sceneAfterDM sm udm hideBottomIcons muteDM sc).show_driver_camera =
      sc.show_driver_camera ∧
    (sceneAfterDM sm udm hideBottomIcons muteDM sc).wide_camera_disabled =
      sc.wide_camera_disabled ∧
    (sceneAfterDM sm udm hideBottomIcons muteDM sc).calibration_valid =
      sc.calibration_valid ∧
    (sceneAfterDM sm udm hideBottomIcons muteDM sc).calibration_wide_valid =
      sc.calibration_wide_valid ∧
    (sceneAfterDM sm udm hideBottomIcons muteDM sc).longitudinal_control =
      sc.longitudinal_control ∧
    (sceneAfterDM sm udm hideBottomIcons muteDM sc).started_frame = sc.started_frame := by
  unfold sceneAfterDM
  split <;> exact ⟨rfl, rfl, rfl, rfl, rfl, rfl, rfl⟩

/-- SubMaster snapshot used by the C1 counterexample: wide camera
unavailable, nothing fresh to draw. -/
def c1Sm : Sm :=
  { vEgo := 0, experimentalMode := false, hasWideCam := false,
    availableStreamsCount := 2, worldObjectsVisible := false,
    rcvFrameModel := 0, rcvFrameRadar := 0, rcvFrameDriverState := 0 }

/-- Widget state used by the C1 counterexample: frames present,
`scene.wide_cam` currently true, `WideCamera` currently stored as true. -/
def c1St : PaintGLState ℕ :=
  { scene :=
      { wide_cam := true, geometry := 0, show_driver_camera := false,
        wide_camera_disabled := false, calibration_valid := true,
        calibration_wide_valid := true, longitudinal_control := true,
        started_frame := 0 },
    memStore := fun _ => true, framesEmpty := false, skipFrameCount := 0,
    wideCamRequested := false, hideBottomIcons := false, muteDM := false }

/-- Claim C1 counterexample: a concrete `paintGL` call rewrites
`scene.wide_cam` (true to false) and the `WideCamera` key of the parameter
store (true to false), so the scene and the settings store are not left
unchanged. -/
theorem C1_counterexample :
    (paintGL c1Sm id id id 0 1 c1St).1.scene.wide_cam ≠ c1St.scene.wide_cam ∧
    (paintGL c1Sm id id id 0 1 c1St).1.memStore "WideCamera" ≠
      c1St.memStore "WideCamera" := by
  constructor <;> decide

/-- Claim C1 (amended): `paintGL` reads the SubMaster snapshot without
writing it, and of the mutable state it rewrites only `scene.wide_cam`,
the overlay geometry (via the external update helpers) and the
`WideCamera` key of the shared-memory parameter store: every other scene
field and every other store key keeps its value. -/
theorem C1_paint_preserves_telemetry {G : Type} (sm : Sm) (um ul udm : G → G)
    (t0 t1 : ℚ) (st : PaintGLState G) :
    (∀ k : String, k ≠ "WideCamera" →
      (paintGL sm um ul udm t0 t1 st).1.memStore k = st.memStore k) ∧
    (paintGL sm um ul udm t0 t1 st).1.scene.show_driver_camera =
      st.scene.show_driver_camera ∧
    (paintGL sm um ul udm t0 t1 st).1.scene.wide_camera_disabled =
      st.scene.wide_camera_disabled ∧
    (paintGL sm um ul udm t0 t1 st).1.scene.calibration_valid =
      st.scene.calibration_valid ∧
    (paintGL sm um ul udm t0 t1 st).1.scene.calibration_wide_valid =
      st.scene.calibration_wide_valid ∧
    (paintGL sm um ul udm t0 t1 st).1.scene.longitudinal_control =
      st.scene.longitudinal_control ∧
    (paintGL sm um ul udm t0 t1 st).1.scene.started_frame =
      st.scene.started_frame := by
  have hm := sceneAfterDM_preserves sm udm st.hideBottomIcons st.muteDM
    (sceneAfterModel sm um ul (sceneAfterWideCam (wideCamRequestedNext sm st) st.scene))
  have hn := sceneAfterModel_preserves sm um ul
    (sceneAfterWideCam (wideCamRequestedNext sm st) st.scene)
  unfold paintGL
  split
  · exact ⟨fun k _ => rfl, rfl, rfl, rfl, rfl, rfl, rfl⟩
  · exact ⟨fun k hk => if_neg hk,
      hm.2.1.trans (hn.2.1.trans rfl),
      hm.2.2.1.trans (hn.2.2.1.trans rfl),
      hm.2.2.2.1.trans (hn.2.2.2.1.trans rfl),
      hm.2.2.2.2.1.trans (hn.2.2.2.2.1.trans rfl),
      hm.2.2.2.2.2.1.trans (hn.2.2.2.2.2.1.trans rfl),
      hm.2.2.2.2.2.2.trans (hn.2.2.2.2.2.2.trans rfl)⟩

/-- Witness for C1 (amended) at a concrete state and the key
`"HideSpeed"`. -/
theorem C1_paint_preserves_telemetry_witness :
    (paintGL c1Sm id id id 0 1 c1St).1.memStore "HideSpeed" =
      c1St.memStore "HideSpeed" :=
  (C1_paint_preserves_telemetry c1Sm id id id 0 1 c1St).1 "HideSpeed" (by decide)

/-- Claim C6: a `paintGL` call that renders publishes exactly one `uiDebug`
message whose payload is the draw time of the call (the span from the
start-of-call clock sample to the after-drawing sample); a call skipped
because camera frames are missing, within the skip budget, publishes
nothing. -/
theorem C6_single_debug_message {G : Type} (sm : Sm) (um ul udm : G → G)
    (t0 t1 : ℚ) (st : PaintGLState G) :
    (paintGL sm um ul udm t0 t1 st).2 =
      if st.framesEmpty ∧ 0 < st.skipFrameCount then [] else [t1 - t0] := by
  unfold paintGL
  split <;> rfl

end Onroad
